import Mathlib

/-!
Verification of the tiiuae/pkvm-nvethernetrm OSI core against its
natural-language specification.

The development shallowly embeds the three subsystems the specification
describes:

* the MMC statistics accumulator (`src/osi/core/eqos_mmc.c`),
* the XPCS link-training routines (`src/osi/core/xpcs.c`),
* the DMA safety shadow / validator and slot scheduling
  (`src/osi/dma/eqos_dma.c`).

Machine integers are embedded as `Nat` with explicit reductions modulo
`2 ^ 32` (C `unsigned int` / `nveu32_t`) and `2 ^ 64` (C `unsigned long`
and `unsigned long long` on the LP64 target this driver is built for; the
specification itself describes the software counters as 64-bit).
Hardware register files are embedded as functions from register
address/offset to value; a register read returns the function's value
reduced modulo `2 ^ 32`, exactly as `osi_readl` returns an
`unsigned int`.

Register offsets and bit masks that the C sources pull in from headers
not present in the repository snapshot (`eqos_mmc.h`, `xpcs.h`,
`eqos_dma.h`) are modelled from the specification: only their
distinctness and, for single-bit masks, their bit positions as given by
their names are used.
-/

/-- Bitwise complement of `m` inside a 32-bit word: the C expression
`~m` evaluated at type `unsigned int`, embedded as XOR with the all-ones
32-bit word. -/
def not32 (m : Nat) : Nat := (2 ^ 32 - 1) ^^^ m

/-- Read of a 32-bit hardware register: `osi_readl` returns an
`unsigned int`, so the environment's value is reduced modulo `2 ^ 32`. -/
def read32 (hw : Nat → Nat) (addr : Nat) : Nat := hw addr % 2 ^ 32

/-! ## XPCS register and bit constants

Modelled from the spec: the numeric values below stand in for the
macros of `xpcs.h`, which is not part of the repository snapshot.  The
speed-select bits `SS5`/`SS6`/`SS13` are the control-register bits their
names denote (bits 5, 6 and 13); the autonegotiation-complete interrupt
bit is bit 0; the three speed encodings are distinct non-zero values
inside the speed field mask.  No claim below depends on more than this. -/

def XPCS_VR_MII_AN_INTR_STS_CL37_ANCMPLT_INTR : Nat := 0x1

def XPCS_USXG_AN_STS_SPEED_MASK : Nat := 0x1C00

def XPCS_USXG_AN_STS_SPEED_2500 : Nat := 0x1000

def XPCS_USXG_AN_STS_SPEED_5000 : Nat := 0x1400

def XPCS_USXG_AN_STS_SPEED_10000 : Nat := 0xC00

def XPCS_SR_MII_CTRL_SS5 : Nat := 0x20

def XPCS_SR_MII_CTRL_SS6 : Nat := 0x40

def XPCS_SR_MII_CTRL_SS13 : Nat := 0x2000

def XPCS_SR_MII_CTRL_AN_ENABLE : Nat := 0x1000

def XPCS_VR_XS_PCS_DIG_CTRL1_USRA_RST : Nat := 0x400

def XPCS_SR_XS_PCS_STS1_RLU : Nat := 0x4

/-- Identity of the XPCS registers touched by `xpcs_start`.  Modelled
from the spec: the registers have distinct addresses in `xpcs.h`; only
their identity matters to the write trace. -/
inductive XpcsReg where
  | SR_MII_CTRL
  | VR_MII_AN_INTR_STS
  | VR_XS_PCS_DIG_CTRL1
  | SR_XS_PCS_STS1
deriving DecidableEq, Repr

/-- Environment of one `xpcs_start` execution: the value returned by
each read site.  Polling loops read the same register repeatedly, so
their read sites are indexed streams (`n`-th read of that register by
that loop); the single-shot reads are plain values. -/
structure XpcsEnv where
  /-- First read of `XPCS_SR_MII_CTRL` (before setting AN_ENABLE). -/
  miiCtrl0 : Nat
  /-- Value of the `n`-th read of `XPCS_VR_MII_AN_INTR_STS` inside
  `xpcs_poll_for_an_complete`. -/
  anSts : Nat → Nat
  /-- Read of `XPCS_SR_MII_CTRL` inside `xpcs_set_speed`. -/
  miiCtrl1 : Nat
  /-- Read of `XPCS_VR_XS_PCS_DIG_CTRL1` before asserting `USRA_RST`. -/
  digCtrl0 : Nat
  /-- Value of the `n`-th read of `XPCS_VR_XS_PCS_DIG_CTRL1` inside the
  rate-adaptor self-clear poll. -/
  digSts : Nat → Nat
  /-- Value of the `n`-th read of `XPCS_SR_XS_PCS_STS1` inside the
  receive-link-up poll. -/
  pcsSts : Nat → Nat

/-- Result of the autonegotiation-complete polling loop of
`xpcs_poll_for_an_complete`, together with the number of reads of the
interrupt-status register and the number of `udelay(1000U)` calls the
loop performed. -/
inductive AnPollResult where
  | timedOut (reads delays : Nat)
  | completed (status reads delays : Nat)
deriving DecidableEq, Repr

/-- Loop of `xpcs_poll_for_an_complete` (`xpcs.c` lines 49-68).  The C
loop keeps a counter starting at 0 and exits with `-1` when
`count > retry` with `retry = 1000`; `remaining = 1001 - count` is the
countdown to that guard, so the loop starts with `remaining = 1001`.
Each iteration increments `count`, reads the interrupt-status register
(the `reads`-th read so far), and either delays 1000 microseconds and
polls again (AN-complete bit clear) or writes back the status with the
AN-complete bit cleared and leaves the loop. -/
def xpcs_poll_an_go (anSts : Nat → Nat) (remaining reads delays : Nat) : AnPollResult :=
  match remaining with
  | 0 => .timedOut reads delays
  | r + 1 =>
    let status := anSts reads % 2 ^ 32
    if status &&& XPCS_VR_MII_AN_INTR_STS_CL37_ANCMPLT_INTR = 0 then
      xpcs_poll_an_go anSts r (reads + 1) (delays + 1)
    else
      .completed (status &&& not32 XPCS_VR_MII_AN_INTR_STS_CL37_ANCMPLT_INTR) (reads + 1) delays

/-- Rate-adaptor reset self-clear poll of `xpcs_start` (`xpcs.c` lines
153-166): same `count > retry` guard with `retry = 1000`, hence the
countdown starts at 1001.  Returns whether the bit self-cleared in time
plus the read and delay counts. -/
def xpcs_ra_poll_go (digSts : Nat → Nat) (remaining reads delays : Nat) : Bool × Nat × Nat :=
  match remaining with
  | 0 => (false, reads, delays)
  | r + 1 =>
    let ctrl := digSts reads % 2 ^ 32
    if ctrl &&& XPCS_VR_XS_PCS_DIG_CTRL1_USRA_RST = 0 then
      (true, reads + 1, delays)
    else
      xpcs_ra_poll_go digSts r (reads + 1) (delays + 1)

/-- Receive-link-up poll of `xpcs_start` (`xpcs.c` lines 171-185): same
bounded-poll shape, exiting when the `RLU` bit reads as set. -/
def xpcs_lu_poll_go (pcsSts : Nat → Nat) (remaining reads delays : Nat) : Bool × Nat × Nat :=
  match remaining with
  | 0 => (false, reads, delays)
  | r + 1 =>
    let ctrl := pcsSts reads % 2 ^ 32
    if ctrl &&& XPCS_SR_XS_PCS_STS1_RLU = XPCS_SR_XS_PCS_STS1_RLU then
      (true, reads + 1, delays)
    else
      xpcs_lu_poll_go pcsSts r (reads + 1) (delays + 1)

/-- Value written to `XPCS_SR_MII_CTRL` by `xpcs_set_speed` (`xpcs.c`
lines 88-116) given the AN status word and the control register value it
read: the C `switch` on `status & XPCS_USXG_AN_STS_SPEED_MASK` with the
`XPCS_USXG_AN_STS_SPEED_10000` case fused with `default`. -/
def xpcs_set_speed_val (status ctrl : Nat) : Nat :=
  let speed := status &&& XPCS_USXG_AN_STS_SPEED_MASK
  if speed = XPCS_USXG_AN_STS_SPEED_2500 then
    (ctrl ||| XPCS_SR_MII_CTRL_SS5) &&& not32 (XPCS_SR_MII_CTRL_SS6 ||| XPCS_SR_MII_CTRL_SS13)
  else if speed = XPCS_USXG_AN_STS_SPEED_5000 then
    (ctrl ||| (XPCS_SR_MII_CTRL_SS5 ||| XPCS_SR_MII_CTRL_SS13)) &&& not32 XPCS_SR_MII_CTRL_SS6
  else
    (ctrl ||| (XPCS_SR_MII_CTRL_SS6 ||| XPCS_SR_MII_CTRL_SS13)) &&& not32 XPCS_SR_MII_CTRL_SS5

/-- Observable outcome of one `xpcs_start` call: return value, ordered
list of register writes, and per-loop read/delay counts. -/
structure XpcsStartRun where
  ret : Int
  writes : List (XpcsReg × Nat)
  anReads : Nat
  anDelays : Nat
  raReads : Nat
  raDelays : Nat
  luReads : Nat
  luDelays : Nat
deriving DecidableEq, Repr

/-- The `xpcs_start` routine (`xpcs.c` lines 128-188), with
`xpcs_poll_for_an_complete` and `xpcs_set_speed` inlined at their call
sites.  It enables autonegotiation, polls for AN completion (clearing
the completion interrupt by write-back on success), fails if the
negotiated speed field is zero, programs the speed-select bits, asserts
the rate-adaptor reset and polls for its self-clear, and finally polls
for receive link up.  Every failure path returns `-1`. -/
def xpcs_start (env : XpcsEnv) : XpcsStartRun :=
  let ctrl0 := env.miiCtrl0 % 2 ^ 32
  let w1 : XpcsReg × Nat := (.SR_MII_CTRL, ctrl0 ||| XPCS_SR_MII_CTRL_AN_ENABLE)
  match xpcs_poll_an_go env.anSts 1001 0 0 with
  | .timedOut r d =>
    { ret := -1, writes := [w1], anReads := r, anDelays := d,
      raReads := 0, raDelays := 0, luReads := 0, luDelays := 0 }
  | .completed status r d =>
    let w2 : XpcsReg × Nat := (.VR_MII_AN_INTR_STS, status)
    if status &&& XPCS_USXG_AN_STS_SPEED_MASK = 0 then
      { ret := -1, writes := [w1, w2], anReads := r, anDelays := d,
        raReads := 0, raDelays := 0, luReads := 0, luDelays := 0 }
    else
      let w3 : XpcsReg × Nat := (.SR_MII_CTRL, xpcs_set_speed_val status (env.miiCtrl1 % 2 ^ 32))
      let dctrl := env.digCtrl0 % 2 ^ 32
      let w4 : XpcsReg × Nat := (.VR_XS_PCS_DIG_CTRL1, dctrl ||| XPCS_VR_XS_PCS_DIG_CTRL1_USRA_RST)
      match xpcs_ra_poll_go env.digSts 1001 0 0 with
      | (false, rr, rd) =>
        { ret := -1, writes := [w1, w2, w3, w4], anReads := r, anDelays := d,
          raReads := rr, raDelays := rd, luReads := 0, luDelays := 0 }
      | (true, rr, rd) =>
        match xpcs_lu_poll_go env.pcsSts 1001 0 0 with
        | (false, lr, ld) =>
          { ret := -1, writes := [w1, w2, w3, w4], anReads := r, anDelays := d,
            raReads := rr, raDelays := rd, luReads := lr, luDelays := ld }
        | (true, lr, ld) =>
          { ret := 0, writes := [w1, w2, w3, w4], anReads := r, anDelays := d,
            raReads := rr, raDelays := rd, luReads := lr, luDelays := ld }

/-- Environment in which every read of the AN interrupt-status register
returns 0, so the AN-complete bit never sets. -/
def envAnSilent : XpcsEnv :=
  { miiCtrl0 := 0, anSts := fun _ => 0, miiCtrl1 := 0,
    digCtrl0 := 0, digSts := fun _ => 0, pcsSts := fun _ => 0 }

/-- Environment in which the very first read of the AN interrupt-status
register has the AN-complete bit (bit 0) set and every speed bit clear:
autonegotiation completes immediately with a zero speed field. -/
def envAnZeroSpeed : XpcsEnv :=
  { miiCtrl0 := 0, anSts := fun _ => 1, miiCtrl1 := 0,
    digCtrl0 := 0, digSts := fun _ => 0, pcsSts := fun _ => 0 }

/-! ## DMA safety shadow, validator and slot scheduling

Embedding of `eqos_dma.c`.  The shadow table `dma_func_safety` keeps,
per slot index, the monitored register's address (`OSI_NULL` embedded as
`none`), the applicable bit mask and the last written masked value.  The
hardware register file is a function from address to value. -/

/-- Size of the safety-shadow table.  Modelled from the spec: the table
is sized to the maximum number of monitorable DMA channels (8) times the
six monitored register classes, matching `EQOS_MAX_DMA_SAFETY_REGS` of
the missing `eqos_dma.h`.  The scan of the table starts at
`EQOS_DMA_CH0_CTRL_IDX = 0`. -/
def EQOS_MAX_DMA_SAFETY_REGS : Nat := 48

/-- The `struct dma_func_safety` of `dma_local.h`: per-slot register
address (absent for unused slots), mask, and last written masked value.
The mutual-exclusion lock is not represented: the embedded operations
are the whole critical sections, which the lock makes atomic. -/
structure dma_func_safety where
  reg_addr : Nat → Option Nat
  reg_mask : Nat → Nat
  reg_val : Nat → Nat

/-- The `eqos_dma_safety_writel` routine (`eqos_dma.c` lines 58-68):
under the lock, write `val` to the live hardware register at `addr` and
store `val & reg_mask[idx]` into shadow slot `idx`.  Returns the updated
hardware register file and shadow table. -/
def eqos_dma_safety_writel (val addr idx : Nat) (hw : Nat → Nat)
    (cfg : dma_func_safety) : (Nat → Nat) × dma_func_safety :=
  (fun a => if a = addr then val else hw a,
   { cfg with reg_val := fun i => if i = idx then val &&& cfg.reg_mask idx else cfg.reg_val i })

/-- Scan of `eqos_validate_dma_regs` (`eqos_dma.c` lines 317-335) over a
list of slot indices: an unpopulated slot (`reg_addr == OSI_NULL`) is
skipped; a populated slot re-reads its hardware register, masks it and
compares with the stored shadow value, returning `-1` on the first
mismatch; the scan returns `0` when every slot passed. -/
def validate_slot_scan (hw : Nat → Nat) (cfg : dma_func_safety) : List Nat → Int
  | [] => 0
  | i :: rest =>
    match cfg.reg_addr i with
    | none => validate_slot_scan hw cfg rest
    | some a =>
      if read32 hw a &&& cfg.reg_mask i = cfg.reg_val i then
        validate_slot_scan hw cfg rest
      else
        -1

/-- The `eqos_validate_dma_regs` routine: scan every slot index from
`EQOS_DMA_CH0_CTRL_IDX = 0` up to `EQOS_MAX_DMA_SAFETY_REGS` under the
lock; `0` on success, `-1` on the first mismatch. -/
def eqos_validate_dma_regs (hw : Nat → Nat) (cfg : dma_func_safety) : Int :=
  validate_slot_scan hw cfg (List.range EQOS_MAX_DMA_SAFETY_REGS)

/-- The `OSI_ENABLE` flag value of the OSI headers. -/
def OSI_ENABLE : Nat := 1

/-- The `OSI_DISABLE` flag value of the OSI headers. -/
def OSI_DISABLE : Nat := 0

/-- Slot-control enable bit `ESC`.  Modelled from the spec: bit 0 of the
per-channel slot control register, per the missing `eqos_dma.h`. -/
def EQOS_DMA_CHX_SLOT_ESC : Nat := 0x1

/-- Slot-interval mask.  Modelled from the spec: the interval ranges
over 0..4095 microseconds, a 12-bit field. -/
def EQOS_DMA_CHX_SLOT_SIV_MASK : Nat := 0xFFF

/-- Slot-interval field position.  Modelled from the spec: the `SIV`
field sits above the control bits, at bit 4 of the register. -/
def EQOS_DMA_CHX_SLOT_SIV_SHIFT : Nat := 4

/-- Value written back to the per-channel slot control register by
`eqos_config_slot` (`eqos_dma.c` lines 374-394) given the flag `set`,
the requested `interval` and the register value it read.  On
`OSI_ENABLE`, the interval (overflow bits removed) is programmed and the
`ESC` bit set; otherwise only the `ESC` bit is cleared. -/
def eqos_config_slot_val (set interval value : Nat) : Nat :=
  if set = OSI_ENABLE then
    let cleared := value &&& not32 EQOS_DMA_CHX_SLOT_SIV_MASK
    let intr := interval &&& EQOS_DMA_CHX_SLOT_SIV_MASK
    (cleared ||| (intr <<< EQOS_DMA_CHX_SLOT_SIV_SHIFT)) ||| EQOS_DMA_CHX_SLOT_ESC
  else
    value &&& not32 EQOS_DMA_CHX_SLOT_ESC

/-- Shadow table with a single populated slot 0 monitoring address
`0x1100` under mask `0xFF`, with shadow value 5. -/
def dmaCfgOne : dma_func_safety :=
  { reg_addr := fun i => if i = 0 then some 0x1100 else none,
    reg_mask := fun _ => 0xFF,
    reg_val := fun i => if i = 0 then 5 else 0 }

/-- Hardware register file matching `dmaCfgOne`: the monitored register
holds 5. -/
def dmaHwOne : Nat → Nat := fun a => if a = 0x1100 then 5 else 0

/-- Shadow table with every slot unpopulated, as after
`eqos_dma_safety_init` with no DMA channels configured. -/
def dmaCfgNone : dma_func_safety :=
  { reg_addr := fun _ => none, reg_mask := fun _ => 0, reg_val := fun _ => 0 }

/-! ## MMC statistics accumulator

Embedding of `eqos_mmc.c`.  The software counters are C `unsigned long`
values, 64-bit on the LP64 target (the specification's "overflow-safe
64-bit running totals"); `unsigned long long` is likewise 64-bit there,
so the intermediate sum of `update_mmc_val` is reduced modulo `2 ^ 64`.
The MMC register offsets below are modelled from the spec (the header
`eqos_mmc.h` is not in the repository snapshot): one distinct offset per
hardware counter register, in the standard EQOS MMC block layout. -/

/-- Largest value of the C type `unsigned long` on the LP64 target. -/
def ULONG_MAX : Nat := 2 ^ 64 - 1

/-- Offset of the MMC control register. -/
def EQOS_MMC_CNTRL : Nat := 0x700

/-- Self-clearing counter-reset bit of the MMC control register. -/
def EQOS_MMC_CNTRL_CNTRST : Nat := 0x1
def MMC_TXOCTETCOUNT_GB : Nat := 0x714
def MMC_TXPACKETCOUNT_GB : Nat := 0x718
def MMC_TXBROADCASTPACKETS_G : Nat := 0x71C
def MMC_TXMULTICASTPACKETS_G : Nat := 0x720
def MMC_TX64OCTETS_GB : Nat := 0x724
def MMC_TX65TO127OCTETS_GB : Nat := 0x728
def MMC_TX128TO255OCTETS_GB : Nat := 0x72C
def MMC_TX256TO511OCTETS_GB : Nat := 0x730
def MMC_TX512TO1023OCTETS_GB : Nat := 0x734
def MMC_TX1024TOMAXOCTETS_GB : Nat := 0x738
def MMC_TXUNICASTPACKETS_GB : Nat := 0x73C
def MMC_TXMULTICASTPACKETS_GB : Nat := 0x740
def MMC_TXBROADCASTPACKETS_GB : Nat := 0x744
def MMC_TXUNDERFLOWERROR : Nat := 0x748
def MMC_TXSINGLECOL_G : Nat := 0x74C
def MMC_TXMULTICOL_G : Nat := 0x750
def MMC_TXDEFERRED : Nat := 0x754
def MMC_TXLATECOL : Nat := 0x758
def MMC_TXEXESSCOL : Nat := 0x75C
def MMC_TXCARRIERERROR : Nat := 0x760
def MMC_TXOCTETCOUNT_G : Nat := 0x764
def MMC_TXPACKETSCOUNT_G : Nat := 0x768
def MMC_TXEXCESSDEF : Nat := 0x76C
def MMC_TXPAUSEPACKETS : Nat := 0x770
def MMC_TXVLANPACKETS_G : Nat := 0x774
def MMC_TXOVERSIZE_G : Nat := 0x778
def MMC_RXPACKETCOUNT_GB : Nat := 0x780
def MMC_RXOCTETCOUNT_GB : Nat := 0x784
def MMC_RXOCTETCOUNT_G : Nat := 0x788
def MMC_RXBROADCASTPACKETS_G : Nat := 0x78C
def MMC_RXMULTICASTPACKETS_G : Nat := 0x790
def MMC_RXCRCERROR : Nat := 0x794
def MMC_RXALIGNMENTERROR : Nat := 0x798
def MMC_RXRUNTERROR : Nat := 0x79C
def MMC_RXJABBERERROR : Nat := 0x7A0
def MMC_RXUNDERSIZE_G : Nat := 0x7A4
def MMC_RXOVERSIZE_G : Nat := 0x7A8
def MMC_RX64OCTETS_GB : Nat := 0x7AC
def MMC_RX65TO127OCTETS_GB : Nat := 0x7B0
def MMC_RX128TO255OCTETS_GB : Nat := 0x7B4
def MMC_RX256TO511OCTETS_GB : Nat := 0x7B8
def MMC_RX512TO1023OCTETS_GB : Nat := 0x7BC
def MMC_RX1024TOMAXOCTETS_GB : Nat := 0x7C0
def MMC_RXUNICASTPACKETS_G : Nat := 0x7C4
def MMC_RXLENGTHERROR : Nat := 0x7C8
def MMC_RXOUTOFRANGETYPE : Nat := 0x7CC
def MMC_RXPAUSEPACKETS : Nat := 0x7D0
def MMC_RXFIFOOVERFLOW : Nat := 0x7D4
def MMC_RXVLANPACKETS_GB : Nat := 0x7D8
def MMC_RXWATCHDOGERROR : Nat := 0x7DC
def MMC_RXRCVERROR : Nat := 0x7E0
def MMC_RXCTRLPACKETS_G : Nat := 0x7E4
def MMC_RXIPV4_GD_PKTS : Nat := 0x810
def MMC_RXIPV4_HDRERR_PKTS : Nat := 0x814
def MMC_RXIPV4_NOPAY_PKTS : Nat := 0x818
def MMC_RXIPV4_FRAG_PKTS : Nat := 0x81C
def MMC_RXIPV4_UBSBL_PKTS : Nat := 0x820
def MMC_RXIPV6_GD_PKTS : Nat := 0x824
def MMC_RXIPV6_HDRERR_PKTS : Nat := 0x828
def MMC_RXIPV6_NOPAY_PKTS : Nat := 0x82C
def MMC_RXUDP_GD_PKTS : Nat := 0x830
def MMC_RXUDP_ERR_PKTS : Nat := 0x834
def MMC_RXTCP_GD_PKTS : Nat := 0x838
def MMC_RXTCP_ERR_PKTS : Nat := 0x83C
def MMC_RXICMP_GD_PKTS : Nat := 0x840
def MMC_RXICMP_ERR_PKTS : Nat := 0x844
def MMC_RXIPV4_GD_OCTETS : Nat := 0x850
def MMC_RXIPV4_HDRERR_OCTETS : Nat := 0x854
def MMC_RXIPV4_NOPAY_OCTETS : Nat := 0x858
def MMC_RXIPV4_FRAG_OCTETS : Nat := 0x85C
def MMC_RXIPV4_UDSBL_OCTETS : Nat := 0x860
def MMC_RXIPV6_GD_OCTETS : Nat := 0x864
def MMC_RXIPV6_HDRERR_OCTETS : Nat := 0x868
def MMC_RXIPV6_NOPAY_OCTETS : Nat := 0x86C
def MMC_RXUDP_GD_OCTETS : Nat := 0x870
def MMC_RXUDP_ERR_OCTETS : Nat := 0x874
def MMC_RXTCP_GD_OCTETS : Nat := 0x878
def MMC_RXTCP_ERR_OCTETS : Nat := 0x87C
def MMC_RXICMP_GD_OCTETS : Nat := 0x880
def MMC_RXICMP_ERR_OCTETS : Nat := 0x884

/-- The fields of `struct osi_mmc_counters` updated by `eqos_read_mmc`,
in source order; every field is an `unsigned long` software counter,
zero-initialized.  (`mmc_rx_udp_gd_octets` appears once here though it
is assigned twice by `eqos_read_mmc`.) -/
structure MmcCounters where
  mmc_tx_octetcount_gb : Nat := 0
  mmc_tx_framecount_gb : Nat := 0
  mmc_tx_broadcastframe_g : Nat := 0
  mmc_tx_multicastframe_g : Nat := 0
  mmc_tx_64_octets_gb : Nat := 0
  mmc_tx_65_to_127_octets_gb : Nat := 0
  mmc_tx_128_to_255_octets_gb : Nat := 0
  mmc_tx_256_to_511_octets_gb : Nat := 0
  mmc_tx_512_to_1023_octets_gb : Nat := 0
  mmc_tx_1024_to_max_octets_gb : Nat := 0
  mmc_tx_unicast_gb : Nat := 0
  mmc_tx_multicast_gb : Nat := 0
  mmc_tx_broadcast_gb : Nat := 0
  mmc_tx_underflow_error : Nat := 0
  mmc_tx_singlecol_g : Nat := 0
  mmc_tx_multicol_g : Nat := 0
  mmc_tx_deferred : Nat := 0
  mmc_tx_latecol : Nat := 0
  mmc_tx_exesscol : Nat := 0
  mmc_tx_carrier_error : Nat := 0
  mmc_tx_octetcount_g : Nat := 0
  mmc_tx_framecount_g : Nat := 0
  mmc_tx_excessdef : Nat := 0
  mmc_tx_pause_frame : Nat := 0
  mmc_tx_vlan_frame_g : Nat := 0
  mmc_tx_osize_frame_g : Nat := 0
  mmc_rx_framecount_gb : Nat := 0
  mmc_rx_octetcount_gb : Nat := 0
  mmc_rx_octetcount_g : Nat := 0
  mmc_rx_broadcastframe_g : Nat := 0
  mmc_rx_multicastframe_g : Nat := 0
  mmc_rx_crc_error : Nat := 0
  mmc_rx_align_error : Nat := 0
  mmc_rx_runt_error : Nat := 0
  mmc_rx_jabber_error : Nat := 0
  mmc_rx_undersize_g : Nat := 0
  mmc_rx_oversize_g : Nat := 0
  mmc_rx_64_octets_gb : Nat := 0
  mmc_rx_65_to_127_octets_gb : Nat := 0
  mmc_rx_128_to_255_octets_gb : Nat := 0
  mmc_rx_256_to_511_octets_gb : Nat := 0
  mmc_rx_512_to_1023_octets_gb : Nat := 0
  mmc_rx_1024_to_max_octets_gb : Nat := 0
  mmc_rx_unicast_g : Nat := 0
  mmc_rx_length_error : Nat := 0
  mmc_rx_outofrangetype : Nat := 0
  mmc_rx_pause_frames : Nat := 0
  mmc_rx_fifo_overflow : Nat := 0
  mmc_rx_vlan_frames_gb : Nat := 0
  mmc_rx_watchdog_error : Nat := 0
  mmc_rx_receive_error : Nat := 0
  mmc_rx_ctrl_frames_g : Nat := 0
  mmc_rx_ipv4_gd : Nat := 0
  mmc_rx_ipv4_hderr : Nat := 0
  mmc_rx_ipv4_nopay : Nat := 0
  mmc_rx_ipv4_frag : Nat := 0
  mmc_rx_ipv4_udsbl : Nat := 0
  mmc_rx_ipv6_gd_octets : Nat := 0
  mmc_rx_ipv6_hderr_octets : Nat := 0
  mmc_rx_ipv6_nopay_octets : Nat := 0
  mmc_rx_udp_gd : Nat := 0
  mmc_rx_udp_err : Nat := 0
  mmc_rx_tcp_gd : Nat := 0
  mmc_rx_tcp_err : Nat := 0
  mmc_rx_icmp_gd : Nat := 0
  mmc_rx_icmp_err : Nat := 0
  mmc_rx_ipv4_gd_octets : Nat := 0
  mmc_rx_ipv4_hderr_octets : Nat := 0
  mmc_rx_ipv4_nopay_octets : Nat := 0
  mmc_rx_ipv4_frag_octets : Nat := 0
  mmc_rx_ipv4_udsbl_octets : Nat := 0
  mmc_rx_udp_gd_octets : Nat := 0
  mmc_rx_ipv6_hderr : Nat := 0
  mmc_rx_ipv6_nopay : Nat := 0
  mmc_rx_udp_err_octets : Nat := 0
  mmc_rx_tcp_gd_octets : Nat := 0
  mmc_rx_tcp_err_octets : Nat := 0
  mmc_rx_icmp_gd_octets : Nat := 0
  mmc_rx_icmp_err_octets : Nat := 0
deriving Repr, DecidableEq

/-- State of the accumulator: the counter structure plus the number of
times the self-clearing `CNTRST` bit has been written to the MMC control
register. -/
structure MmcState where
  mmc : MmcCounters := {}
  resets : Nat := 0
deriving Repr, DecidableEq

/-- The `eqos_reset_mmc` routine (`eqos_mmc.c` lines 83-92): read the
MMC control register, set the self-clearing `CNTRST` bit, write it back
(recorded here as one more assertion of the reset bit), and `memset` the
whole counter structure to zero. -/
def eqos_reset_mmc (st : MmcState) : MmcState :=
  { mmc := {}, resets := st.resets + 1 }

/-- The `update_mmc_val` helper (`eqos_mmc.c` lines 47-66): read the
hardware register at `offset`, form `temp = last_value + value` in
`unsigned long long` arithmetic (64-bit, hence the reduction modulo
`2 ^ 64`), and if `temp > ULONG_MAX` log, reset all counters and return
0, else return `temp` as `unsigned long`. -/
def update_mmc_val (hw : Nat → Nat) (st : MmcState) (last_value offset : Nat) :
    Nat × MmcState :=
  let value := read32 hw offset
  let temp := (last_value + value) % 2 ^ 64
  if temp > ULONG_MAX then
    (0, eqos_reset_mmc st)
  else
    (temp, st)

/-- The `eqos_read_mmc` routine (`eqos_mmc.c` lines 110-354): for each
counter in source order, pass the stored value and the register offset
to `update_mmc_val` and store the result.  The two deviations of the
source are reproduced: `mmc_tx_carrier_error` is accumulated from
`mmc->mmc_tx_exesscol` (line 172), and `mmc_rx_udp_gd_octets` is
assigned twice, first from `MMC_RXIPV6_GD_OCTETS` (line 329) and then
from `MMC_RXUDP_GD_OCTETS` (line 338). -/
def eqos_read_mmc (hw : Nat → Nat) (st : MmcState) : MmcState :=
  let s := st
  let (v, s) := update_mmc_val hw s s.mmc.mmc_tx_octetcount_gb MMC_TXOCTETCOUNT_GB
  let s := { s with mmc := { s.mmc with mmc_tx_octetcount_gb := v } }
  let (v, s) := update_mmc_val hw s s.mmc.mmc_tx_framecount_gb MMC_TXPACKETCOUNT_GB
  let s := { s with mmc := { s.mmc with mmc_tx_framecount_gb := v } }
  let (v, s) := update_mmc_val hw s s.mmc.mmc_tx_broadcastframe_g MMC_TXBROADCASTPACKETS_G
  let s := { s with mmc := { s.mmc with mmc_tx_broadcastframe_g := v } }
  let (v, s) := update_mmc_val hw s s.mmc.mmc_tx_multicastframe_g MMC_TXMULTICASTPACKETS_G
  let s := { s with mmc := { s.mmc with mmc_tx_multicastframe_g := v } }
  let (v, s) := update_mmc_val hw s s.mmc.mmc_tx_64_octets_gb MMC_TX64OCTETS_GB
  let s := { s with mmc := { s.mmc with mmc_tx_64_octets_gb := v } }
  let (v, s) := update_mmc_val hw s s.mmc.mmc_tx_65_to_127_octets_gb MMC_TX65TO127OCTETS_GB
  let s := { s with mmc := { s.mmc with mmc_tx_65_to_127_octets_gb := v } }
  let (v, s) := update_mmc_val hw s s.mmc.mmc_tx_128_to_255_octets_gb MMC_TX128TO255OCTETS_GB
  let s := { s with mmc := { s.mmc with mmc_tx_128_to_255_octets_gb := v } }
  let (v, s) := update_mmc_val hw s s.mmc.mmc_tx_256_to_511_octets_gb MMC_TX256TO511OCTETS_GB
  let s := { s with mmc := { s.mmc with mmc_tx_256_to_511_octets_gb := v } }
  let (v, s) := update_mmc_val hw s s.mmc.mmc_tx_512_to_1023_octets_gb MMC_TX512TO1023OCTETS_GB
  let s := { s with mmc := { s.mmc with mmc_tx_512_to_1023_octets_gb := v } }
  let (v, s) := update_mmc_val hw s s.mmc.mmc_tx_1024_to_max_octets_gb MMC_TX1024TOMAXOCTETS_GB
  let s := { s with mmc := { s.mmc with mmc_tx_1024_to_max_octets_gb := v } }
  let (v, s) := update_mmc_val hw s s.mmc.mmc_tx_unicast_gb MMC_TXUNICASTPACKETS_GB
  let s := { s with mmc := { s.mmc with mmc_tx_unicast_gb := v } }
  let (v, s) := update_mmc_val hw s s.mmc.mmc_tx_multicast_gb MMC_TXMULTICASTPACKETS_GB
  let s := { s with mmc := { s.mmc with mmc_tx_multicast_gb := v } }
  let (v, s) := update_mmc_val hw s s.mmc.mmc_tx_broadcast_gb MMC_TXBROADCASTPACKETS_GB
  let s := { s with mmc := { s.mmc with mmc_tx_broadcast_gb := v } }
  let (v, s) := update_mmc_val hw s s.mmc.mmc_tx_underflow_error MMC_TXUNDERFLOWERROR
  let s := { s with mmc := { s.mmc with mmc_tx_underflow_error := v } }
  let (v, s) := update_mmc_val hw s s.mmc.mmc_tx_singlecol_g MMC_TXSINGLECOL_G
  let s := { s with mmc := { s.mmc with mmc_tx_singlecol_g := v } }
  let (v, s) := update_mmc_val hw s s.mmc.mmc_tx_multicol_g MMC_TXMULTICOL_G
  let s := { s with mmc := { s.mmc with mmc_tx_multicol_g := v } }
  let (v, s) := update_mmc_val hw s s.mmc.mmc_tx_deferred MMC_TXDEFERRED
  let s := { s with mmc := { s.mmc with mmc_tx_deferred := v } }
  let (v, s) := update_mmc_val hw s s.mmc.mmc_tx_latecol MMC_TXLATECOL
  let s := { s with mmc := { s.mmc with mmc_tx_latecol := v } }
  let (v, s) := update_mmc_val hw s s.mmc.mmc_tx_exesscol MMC_TXEXESSCOL
  let s := { s with mmc := { s.mmc with mmc_tx_exesscol := v } }
  let (v, s) := update_mmc_val hw s s.mmc.mmc_tx_exesscol MMC_TXCARRIERERROR
  let s := { s with mmc := { s.mmc with mmc_tx_carrier_error := v } }
  let (v, s) := update_mmc_val hw s s.mmc.mmc_tx_octetcount_g MMC_TXOCTETCOUNT_G
  let s := { s with mmc := { s.mmc with mmc_tx_octetcount_g := v } }
  let (v, s) := update_mmc_val hw s s.mmc.mmc_tx_framecount_g MMC_TXPACKETSCOUNT_G
  let s := { s with mmc := { s.mmc with mmc_tx_framecount_g := v } }
  let (v, s) := update_mmc_val hw s s.mmc.mmc_tx_excessdef MMC_TXEXCESSDEF
  let s := { s with mmc := { s.mmc with mmc_tx_excessdef := v } }
  let (v, s) := update_mmc_val hw s s.mmc.mmc_tx_pause_frame MMC_TXPAUSEPACKETS
  let s := { s with mmc := { s.mmc with mmc_tx_pause_frame := v } }
  let (v, s) := update_mmc_val hw s s.mmc.mmc_tx_vlan_frame_g MMC_TXVLANPACKETS_G
  let s := { s with mmc := { s.mmc with mmc_tx_vlan_frame_g := v } }
  let (v, s) := update_mmc_val hw s s.mmc.mmc_tx_osize_frame_g MMC_TXOVERSIZE_G
  let s := { s with mmc := { s.mmc with mmc_tx_osize_frame_g := v } }
  let (v, s) := update_mmc_val hw s s.mmc.mmc_rx_framecount_gb MMC_RXPACKETCOUNT_GB
  let s := { s with mmc := { s.mmc with mmc_rx_framecount_gb := v } }
  let (v, s) := update_mmc_val hw s s.mmc.mmc_rx_octetcount_gb MMC_RXOCTETCOUNT_GB
  let s := { s with mmc := { s.mmc with mmc_rx_octetcount_gb := v } }
  let (v, s) := update_mmc_val hw s s.mmc.mmc_rx_octetcount_g MMC_RXOCTETCOUNT_G
  let s := { s with mmc := { s.mmc with mmc_rx_octetcount_g := v } }
  let (v, s) := update_mmc_val hw s s.mmc.mmc_rx_broadcastframe_g MMC_RXBROADCASTPACKETS_G
  let s := { s with mmc := { s.mmc with mmc_rx_broadcastframe_g := v } }
  let (v, s) := update_mmc_val hw s s.mmc.mmc_rx_multicastframe_g MMC_RXMULTICASTPACKETS_G
  let s := { s with mmc := { s.mmc with mmc_rx_multicastframe_g := v } }
  let (v, s) := update_mmc_val hw s s.mmc.mmc_rx_crc_error MMC_RXCRCERROR
  let s := { s with mmc := { s.mmc with mmc_rx_crc_error := v } }
  let (v, s) := update_mmc_val hw s s.mmc.mmc_rx_align_error MMC_RXALIGNMENTERROR
  let s := { s with mmc := { s.mmc with mmc_rx_align_error := v } }
  let (v, s) := update_mmc_val hw s s.mmc.mmc_rx_runt_error MMC_RXRUNTERROR
  let s := { s with mmc := { s.mmc with mmc_rx_runt_error := v } }
  let (v, s) := update_mmc_val hw s s.mmc.mmc_rx_jabber_error MMC_RXJABBERERROR
  let s := { s with mmc := { s.mmc with mmc_rx_jabber_error := v } }
  let (v, s) := update_mmc_val hw s s.mmc.mmc_rx_undersize_g MMC_RXUNDERSIZE_G
  let s := { s with mmc := { s.mmc with mmc_rx_undersize_g := v } }
  let (v, s) := update_mmc_val hw s s.mmc.mmc_rx_oversize_g MMC_RXOVERSIZE_G
  let s := { s with mmc := { s.mmc with mmc_rx_oversize_g := v } }
  let (v, s) := update_mmc_val hw s s.mmc.mmc_rx_64_octets_gb MMC_RX64OCTETS_GB
  let s := { s with mmc := { s.mmc with mmc_rx_64_octets_gb := v } }
  let (v, s) := update_mmc_val hw s s.mmc.mmc_rx_65_to_127_octets_gb MMC_RX65TO127OCTETS_GB
  let s := { s with mmc := { s.mmc with mmc_rx_65_to_127_octets_gb := v } }
  let (v, s) := update_mmc_val hw s s.mmc.mmc_rx_128_to_255_octets_gb MMC_RX128TO255OCTETS_GB
  let s := { s with mmc := { s.mmc with mmc_rx_128_to_255_octets_gb := v } }
  let (v, s) := update_mmc_val hw s s.mmc.mmc_rx_256_to_511_octets_gb MMC_RX256TO511OCTETS_GB
  let s := { s with mmc := { s.mmc with mmc_rx_256_to_511_octets_gb := v } }
  let (v, s) := update_mmc_val hw s s.mmc.mmc_rx_512_to_1023_octets_gb MMC_RX512TO1023OCTETS_GB
  let s := { s with mmc := { s.mmc with mmc_rx_512_to_1023_octets_gb := v } }
  let (v, s) := update_mmc_val hw s s.mmc.mmc_rx_1024_to_max_octets_gb MMC_RX1024TOMAXOCTETS_GB
  let s := { s with mmc := { s.mmc with mmc_rx_1024_to_max_octets_gb := v } }
  let (v, s) := update_mmc_val hw s s.mmc.mmc_rx_unicast_g MMC_RXUNICASTPACKETS_G
  let s := { s with mmc := { s.mmc with mmc_rx_unicast_g := v } }
  let (v, s) := update_mmc_val hw s s.mmc.mmc_rx_length_error MMC_RXLENGTHERROR
  let s := { s with mmc := { s.mmc with mmc_rx_length_error := v } }
  let (v, s) := update_mmc_val hw s s.mmc.mmc_rx_outofrangetype MMC_RXOUTOFRANGETYPE
  let s := { s with mmc := { s.mmc with mmc_rx_outofrangetype := v } }
  let (v, s) := update_mmc_val hw s s.mmc.mmc_rx_pause_frames MMC_RXPAUSEPACKETS
  let s := { s with mmc := { s.mmc with mmc_rx_pause_frames := v } }
  let (v, s) := update_mmc_val hw s s.mmc.mmc_rx_fifo_overflow MMC_RXFIFOOVERFLOW
  let s := { s with mmc := { s.mmc with mmc_rx_fifo_overflow := v } }
  let (v, s) := update_mmc_val hw s s.mmc.mmc_rx_vlan_frames_gb MMC_RXVLANPACKETS_GB
  let s := { s with mmc := { s.mmc with mmc_rx_vlan_frames_gb := v } }
  let (v, s) := update_mmc_val hw s s.mmc.mmc_rx_watchdog_error MMC_RXWATCHDOGERROR
  let s := { s with mmc := { s.mmc with mmc_rx_watchdog_error := v } }
  let (v, s) := update_mmc_val hw s s.mmc.mmc_rx_receive_error MMC_RXRCVERROR
  let s := { s with mmc := { s.mmc with mmc_rx_receive_error := v } }
  let (v, s) := update_mmc_val hw s s.mmc.mmc_rx_ctrl_frames_g MMC_RXCTRLPACKETS_G
  let s := { s with mmc := { s.mmc with mmc_rx_ctrl_frames_g := v } }
  let (v, s) := update_mmc_val hw s s.mmc.mmc_rx_ipv4_gd MMC_RXIPV4_GD_PKTS
  let s := { s with mmc := { s.mmc with mmc_rx_ipv4_gd := v } }
  let (v, s) := update_mmc_val hw s s.mmc.mmc_rx_ipv4_hderr MMC_RXIPV4_HDRERR_PKTS
  let s := { s with mmc := { s.mmc with mmc_rx_ipv4_hderr := v } }
  let (v, s) := update_mmc_val hw s s.mmc.mmc_rx_ipv4_nopay MMC_RXIPV4_NOPAY_PKTS
  let s := { s with mmc := { s.mmc with mmc_rx_ipv4_nopay := v } }
  let (v, s) := update_mmc_val hw s s.mmc.mmc_rx_ipv4_frag MMC_RXIPV4_FRAG_PKTS
  let s := { s with mmc := { s.mmc with mmc_rx_ipv4_frag := v } }
  let (v, s) := update_mmc_val hw s s.mmc.mmc_rx_ipv4_udsbl MMC_RXIPV4_UBSBL_PKTS
  let s := { s with mmc := { s.mmc with mmc_rx_ipv4_udsbl := v } }
  let (v, s) := update_mmc_val hw s s.mmc.mmc_rx_ipv6_gd_octets MMC_RXIPV6_GD_PKTS
  let s := { s with mmc := { s.mmc with mmc_rx_ipv6_gd_octets := v } }
  let (v, s) := update_mmc_val hw s s.mmc.mmc_rx_ipv6_hderr_octets MMC_RXIPV6_HDRERR_PKTS
  let s := { s with mmc := { s.mmc with mmc_rx_ipv6_hderr_octets := v } }
  let (v, s) := update_mmc_val hw s s.mmc.mmc_rx_ipv6_nopay_octets MMC_RXIPV6_NOPAY_PKTS
  let s := { s with mmc := { s.mmc with mmc_rx_ipv6_nopay_octets := v } }
  let (v, s) := update_mmc_val hw s s.mmc.mmc_rx_udp_gd MMC_RXUDP_GD_PKTS
  let s := { s with mmc := { s.mmc with mmc_rx_udp_gd := v } }
  let (v, s) := update_mmc_val hw s s.mmc.mmc_rx_udp_err MMC_RXUDP_ERR_PKTS
  let s := { s with mmc := { s.mmc with mmc_rx_udp_err := v } }
  let (v, s) := update_mmc_val hw s s.mmc.mmc_rx_tcp_gd MMC_RXTCP_GD_PKTS
  let s := { s with mmc := { s.mmc with mmc_rx_tcp_gd := v } }
  let (v, s) := update_mmc_val hw s s.mmc.mmc_rx_tcp_err MMC_RXTCP_ERR_PKTS
  let s := { s with mmc := { s.mmc with mmc_rx_tcp_err := v } }
  let (v, s) := update_mmc_val hw s s.mmc.mmc_rx_icmp_gd MMC_RXICMP_GD_PKTS
  let s := { s with mmc := { s.mmc with mmc_rx_icmp_gd := v } }
  let (v, s) := update_mmc_val hw s s.mmc.mmc_rx_icmp_err MMC_RXICMP_ERR_PKTS
  let s := { s with mmc := { s.mmc with mmc_rx_icmp_err := v } }
  let (v, s) := update_mmc_val hw s s.mmc.mmc_rx_ipv4_gd_octets MMC_RXIPV4_GD_OCTETS
  let s := { s with mmc := { s.mmc with mmc_rx_ipv4_gd_octets := v } }
  let (v, s) := update_mmc_val hw s s.mmc.mmc_rx_ipv4_hderr_octets MMC_RXIPV4_HDRERR_OCTETS
  let s := { s with mmc := { s.mmc with mmc_rx_ipv4_hderr_octets := v } }
  let (v, s) := update_mmc_val hw s s.mmc.mmc_rx_ipv4_nopay_octets MMC_RXIPV4_NOPAY_OCTETS
  let s := { s with mmc := { s.mmc with mmc_rx_ipv4_nopay_octets := v } }
  let (v, s) := update_mmc_val hw s s.mmc.mmc_rx_ipv4_frag_octets MMC_RXIPV4_FRAG_OCTETS
  let s := { s with mmc := { s.mmc with mmc_rx_ipv4_frag_octets := v } }
  let (v, s) := update_mmc_val hw s s.mmc.mmc_rx_ipv4_udsbl_octets MMC_RXIPV4_UDSBL_OCTETS
  let s := { s with mmc := { s.mmc with mmc_rx_ipv4_udsbl_octets := v } }
  let (v, s) := update_mmc_val hw s s.mmc.mmc_rx_udp_gd_octets MMC_RXIPV6_GD_OCTETS
  let s := { s with mmc := { s.mmc with mmc_rx_udp_gd_octets := v } }
  let (v, s) := update_mmc_val hw s s.mmc.mmc_rx_ipv6_hderr MMC_RXIPV6_HDRERR_OCTETS
  let s := { s with mmc := { s.mmc with mmc_rx_ipv6_hderr := v } }
  let (v, s) := update_mmc_val hw s s.mmc.mmc_rx_ipv6_nopay MMC_RXIPV6_NOPAY_OCTETS
  let s := { s with mmc := { s.mmc with mmc_rx_ipv6_nopay := v } }
  let (v, s) := update_mmc_val hw s s.mmc.mmc_rx_udp_gd_octets MMC_RXUDP_GD_OCTETS
  let s := { s with mmc := { s.mmc with mmc_rx_udp_gd_octets := v } }
  let (v, s) := update_mmc_val hw s s.mmc.mmc_rx_udp_err_octets MMC_RXUDP_ERR_OCTETS
  let s := { s with mmc := { s.mmc with mmc_rx_udp_err_octets := v } }
  let (v, s) := update_mmc_val hw s s.mmc.mmc_rx_tcp_gd_octets MMC_RXTCP_GD_OCTETS
  let s := { s with mmc := { s.mmc with mmc_rx_tcp_gd_octets := v } }
  let (v, s) := update_mmc_val hw s s.mmc.mmc_rx_tcp_err_octets MMC_RXTCP_ERR_OCTETS
  let s := { s with mmc := { s.mmc with mmc_rx_tcp_err_octets := v } }
  let (v, s) := update_mmc_val hw s s.mmc.mmc_rx_icmp_gd_octets MMC_RXICMP_GD_OCTETS
  let s := { s with mmc := { s.mmc with mmc_rx_icmp_gd_octets := v } }
  let (v, s) := update_mmc_val hw s s.mmc.mmc_rx_icmp_err_octets MMC_RXICMP_ERR_OCTETS
  let s := { s with mmc := { s.mmc with mmc_rx_icmp_err_octets := v } }
  s

/-- Hardware register file in which the transmit octet counter register
reads 2 and every other register reads 0. -/
def mmcHwWrap : Nat → Nat := fun off => if off = MMC_TXOCTETCOUNT_GB then 2 else 0

/-- Accumulator state with all counters zero and no resets recorded. -/
def mmcStZero : MmcState := {}

/-- Hardware register file for the overflow scenario: the transmit
octet counter register reads 1, the transmit packet counter register
reads 5, everything else 0. -/
def mmcHwOv : Nat → Nat := fun off =>
  if off = MMC_TXOCTETCOUNT_GB then 1
  else if off = MMC_TXPACKETCOUNT_GB then 5
  else 0

/-- Accumulator state whose transmit octet counter is saturated at
`ULONG_MAX`, so the next accumulation step mathematically exceeds the
representable range. -/
def mmcStSat : MmcState := { mmc := { mmc_tx_octetcount_gb := ULONG_MAX } }

/-- Hardware register file for the counter-binding scenario: the
carrier-error register reads 1, the IPv6-good-octets register reads 10,
the UDP-good-octets register reads 20, everything else 0. -/
def mmcHwBind : Nat → Nat := fun off =>
  if off = MMC_TXCARRIERERROR then 1
  else if off = MMC_RXIPV6_GD_OCTETS then 10
  else if off = MMC_RXUDP_GD_OCTETS then 20
  else 0

/-- Accumulator state for the counter-binding scenario: the excessive
collision counter holds 100, the carrier-error counter holds 7, the UDP
good-octets counter holds 3. -/
def mmcStBind : MmcState :=
  { mmc := { mmc_tx_exesscol := 100, mmc_tx_carrier_error := 7, mmc_rx_udp_gd_octets := 3 } }

/-! ## Helper lemmas -/

/-- Bit `k < 32` of a 32-bit masked-out value: masking with the 32-bit
complement of `m` keeps exactly the bits of `x` that are clear in `m`. -/
theorem testBit_land_not32_of_lt (x m k : Nat) (hk : k < 32) :
    (x &&& not32 m).testBit k = (x.testBit k && !(m.testBit k)) := by
  have h32 : Nat.testBit 4294967295 k = decide (k < 32) := by
    have he : (4294967295 : Nat) = 2 ^ 32 - 1 := by norm_num
    rw [he, Nat.testBit_two_pow_sub_one]
  simp [not32, Nat.testBit_land, Nat.testBit_xor, h32, hk]

/-- Bit `k < 32` of the read-modify-write pattern `(x | a) & ~b` on
32-bit words. -/
theorem testBit_or_land_not32 (x a b k : Nat) (hk : k < 32) :
    ((x ||| a) &&& not32 b).testBit k = ((x.testBit k || a.testBit k) && !(b.testBit k)) := by
  simp [testBit_land_not32_of_lt _ _ _ hk, Nat.testBit_lor]

/-! ## Claims about the XPCS speed mapping -/

/-- Claim C7: the speed-programming step `xpcs_set_speed` maps each of
the three negotiated speeds 2.5G, 5G and 10G to a distinct pattern of
the three speed-select control-register bits SS5/SS6/SS13 — 2.5G sets
SS5 only, 5G sets SS5 and SS13, 10G sets SS6 and SS13 — so no two of the
three speeds produce the same control-register value, whatever value the
control register held before. -/
theorem xpcs_set_speed_patterns_distinct : ∀ ctrl : Nat,
    ((xpcs_set_speed_val XPCS_USXG_AN_STS_SPEED_2500 ctrl).testBit 5 = true
      ∧ (xpcs_set_speed_val XPCS_USXG_AN_STS_SPEED_2500 ctrl).testBit 6 = false
      ∧ (xpcs_set_speed_val XPCS_USXG_AN_STS_SPEED_2500 ctrl).testBit 13 = false)
    ∧ ((xpcs_set_speed_val XPCS_USXG_AN_STS_SPEED_5000 ctrl).testBit 5 = true
      ∧ (xpcs_set_speed_val XPCS_USXG_AN_STS_SPEED_5000 ctrl).testBit 6 = false
      ∧ (xpcs_set_speed_val XPCS_USXG_AN_STS_SPEED_5000 ctrl).testBit 13 = true)
    ∧ ((xpcs_set_speed_val XPCS_USXG_AN_STS_SPEED_10000 ctrl).testBit 5 = false
      ∧ (xpcs_set_speed_val XPCS_USXG_AN_STS_SPEED_10000 ctrl).testBit 6 = true
      ∧ (xpcs_set_speed_val XPCS_USXG_AN_STS_SPEED_10000 ctrl).testBit 13 = true)
    ∧ xpcs_set_speed_val XPCS_USXG_AN_STS_SPEED_2500 ctrl
        ≠ xpcs_set_speed_val XPCS_USXG_AN_STS_SPEED_5000 ctrl
    ∧ xpcs_set_speed_val XPCS_USXG_AN_STS_SPEED_2500 ctrl
        ≠ xpcs_set_speed_val XPCS_USXG_AN_STS_SPEED_10000 ctrl
    ∧ xpcs_set_speed_val XPCS_USXG_AN_STS_SPEED_5000 ctrl
        ≠ xpcs_set_speed_val XPCS_USXG_AN_STS_SPEED_10000 ctrl := by
  intro ctrl
  have e25 : xpcs_set_speed_val XPCS_USXG_AN_STS_SPEED_2500 ctrl
      = (ctrl ||| XPCS_SR_MII_CTRL_SS5)
        &&& not32 (XPCS_SR_MII_CTRL_SS6 ||| XPCS_SR_MII_CTRL_SS13) := rfl
  have e50 : xpcs_set_speed_val XPCS_USXG_AN_STS_SPEED_5000 ctrl
      = (ctrl ||| (XPCS_SR_MII_CTRL_SS5 ||| XPCS_SR_MII_CTRL_SS13))
        &&& not32 XPCS_SR_MII_CTRL_SS6 := rfl
  have e100 : xpcs_set_speed_val XPCS_USXG_AN_STS_SPEED_10000 ctrl
      = (ctrl ||| (XPCS_SR_MII_CTRL_SS6 ||| XPCS_SR_MII_CTRL_SS13))
        &&& not32 XPCS_SR_MII_CTRL_SS5 := rfl
  have b25_5 : (xpcs_set_speed_val XPCS_USXG_AN_STS_SPEED_2500 ctrl).testBit 5 = true := by
    rw [e25, testBit_or_land_not32 _ _ _ _ (by norm_num)]
    simp [show Nat.testBit XPCS_SR_MII_CTRL_SS5 5 = true from by decide,
      show Nat.testBit (XPCS_SR_MII_CTRL_SS6 ||| XPCS_SR_MII_CTRL_SS13) 5 = false from by decide]
  have b25_6 : (xpcs_set_speed_val XPCS_USXG_AN_STS_SPEED_2500 ctrl).testBit 6 = false := by
    rw [e25, testBit_or_land_not32 _ _ _ _ (by norm_num)]
    simp [show Nat.testBit (XPCS_SR_MII_CTRL_SS6 ||| XPCS_SR_MII_CTRL_SS13) 6 = true from by decide]
  have b25_13 : (xpcs_set_speed_val XPCS_USXG_AN_STS_SPEED_2500 ctrl).testBit 13 = false := by
    rw [e25, testBit_or_land_not32 _ _ _ _ (by norm_num)]
    simp [show Nat.testBit (XPCS_SR_MII_CTRL_SS6 ||| XPCS_SR_MII_CTRL_SS13) 13 = true from by decide]
  have b50_5 : (xpcs_set_speed_val XPCS_USXG_AN_STS_SPEED_5000 ctrl).testBit 5 = true := by
    rw [e50, testBit_or_land_not32 _ _ _ _ (by norm_num)]
    simp [show Nat.testBit (XPCS_SR_MII_CTRL_SS5 ||| XPCS_SR_MII_CTRL_SS13) 5 = true from by decide,
      show Nat.testBit XPCS_SR_MII_CTRL_SS6 5 = false from by decide]
  have b50_6 : (xpcs_set_speed_val XPCS_USXG_AN_STS_SPEED_5000 ctrl).testBit 6 = false := by
    rw [e50, testBit_or_land_not32 _ _ _ _ (by norm_num)]
    simp [show Nat.testBit XPCS_SR_MII_CTRL_SS6 6 = true from by decide]
  have b50_13 : (xpcs_set_speed_val XPCS_USXG_AN_STS_SPEED_5000 ctrl).testBit 13 = true := by
    rw [e50, testBit_or_land_not32 _ _ _ _ (by norm_num)]
    simp [show Nat.testBit (XPCS_SR_MII_CTRL_SS5 ||| XPCS_SR_MII_CTRL_SS13) 13 = true from by decide,
      show Nat.testBit XPCS_SR_MII_CTRL_SS6 13 = false from by decide]
  have b100_5 : (xpcs_set_speed_val XPCS_USXG_AN_STS_SPEED_10000 ctrl).testBit 5 = false := by
    rw [e100, testBit_or_land_not32 _ _ _ _ (by norm_num)]
    simp [show Nat.testBit XPCS_SR_MII_CTRL_SS5 5 = true from by decide]
  have b100_6 : (xpcs_set_speed_val XPCS_USXG_AN_STS_SPEED_10000 ctrl).testBit 6 = true := by
    rw [e100, testBit_or_land_not32 _ _ _ _ (by norm_num)]
    simp [show Nat.testBit (XPCS_SR_MII_CTRL_SS6 ||| XPCS_SR_MII_CTRL_SS13) 6 = true from by decide,
      show Nat.testBit XPCS_SR_MII_CTRL_SS5 6 = false from by decide]
  have b100_13 : (xpcs_set_speed_val XPCS_USXG_AN_STS_SPEED_10000 ctrl).testBit 13 = true := by
    rw [e100, testBit_or_land_not32 _ _ _ _ (by norm_num)]
    simp [show Nat.testBit (XPCS_SR_MII_CTRL_SS6 ||| XPCS_SR_MII_CTRL_SS13) 13 = true from by decide,
      show Nat.testBit XPCS_SR_MII_CTRL_SS5 13 = false from by decide]
  refine ⟨⟨b25_5, b25_6, b25_13⟩, ⟨b50_5, b50_6, b50_13⟩, ⟨b100_5, b100_6, b100_13⟩, ?_, ?_, ?_⟩
  · intro h
    have hb := congrArg (fun n => n.testBit 13) h
    simp only [b25_13, b50_13] at hb
    exact Bool.noConfusion hb
  · intro h
    have hb := congrArg (fun n => n.testBit 13) h
    simp only [b25_13, b100_13] at hb
    exact Bool.noConfusion hb
  · intro h
    have hb := congrArg (fun n => n.testBit 5) h
    simp only [b50_5, b100_5] at hb
    exact Bool.noConfusion hb

/-- Claim C10: for every AN status word whose masked speed field is
non-zero but is neither the 2.5G nor the 5G encoding — including
encodings outside the three documented speeds — `xpcs_set_speed`
programs the 10G pattern (SS6 and SS13 set, SS5 cleared) into the
control register; the `default` arm of the `switch` leaves no non-zero
speed encoding unwritten. -/
theorem xpcs_set_speed_default_programs_10g :
    ∀ status ctrl : Nat,
      status &&& XPCS_USXG_AN_STS_SPEED_MASK ≠ 0 →
      status &&& XPCS_USXG_AN_STS_SPEED_MASK ≠ XPCS_USXG_AN_STS_SPEED_2500 →
      status &&& XPCS_USXG_AN_STS_SPEED_MASK ≠ XPCS_USXG_AN_STS_SPEED_5000 →
      xpcs_set_speed_val status ctrl
          = (ctrl ||| (XPCS_SR_MII_CTRL_SS6 ||| XPCS_SR_MII_CTRL_SS13))
            &&& not32 XPCS_SR_MII_CTRL_SS5
        ∧ (xpcs_set_speed_val status ctrl).testBit 6 = true
        ∧ (xpcs_set_speed_val status ctrl).testBit 13 = true
        ∧ (xpcs_set_speed_val status ctrl).testBit 5 = false := by
  intro status ctrl _ h25 h50
  have e : xpcs_set_speed_val status ctrl
      = (ctrl ||| (XPCS_SR_MII_CTRL_SS6 ||| XPCS_SR_MII_CTRL_SS13))
        &&& not32 XPCS_SR_MII_CTRL_SS5 := by
    unfold xpcs_set_speed_val
    rw [if_neg h25, if_neg h50]
  refine ⟨e, ?_, ?_, ?_⟩
  · rw [e, testBit_or_land_not32 _ _ _ _ (by norm_num)]
    simp [show Nat.testBit (XPCS_SR_MII_CTRL_SS6 ||| XPCS_SR_MII_CTRL_SS13) 6 = true from by decide,
      show Nat.testBit XPCS_SR_MII_CTRL_SS5 6 = false from by decide]
  · rw [e, testBit_or_land_not32 _ _ _ _ (by norm_num)]
    simp [show Nat.testBit (XPCS_SR_MII_CTRL_SS6 ||| XPCS_SR_MII_CTRL_SS13) 13 = true from by decide,
      show Nat.testBit XPCS_SR_MII_CTRL_SS5 13 = false from by decide]
  · rw [e, testBit_or_land_not32 _ _ _ _ (by norm_num)]
    simp [show Nat.testBit XPCS_SR_MII_CTRL_SS5 5 = true from by decide]

/-- Witness for claim C10 at the undocumented non-zero speed encoding
`0x800` with control register 0. -/
theorem xpcs_set_speed_default_programs_10g_witness :
    (0x800 : Nat) &&& XPCS_USXG_AN_STS_SPEED_MASK ≠ 0
    ∧ ((0x800 : Nat) &&& XPCS_USXG_AN_STS_SPEED_MASK ≠ XPCS_USXG_AN_STS_SPEED_2500)
    ∧ ((0x800 : Nat) &&& XPCS_USXG_AN_STS_SPEED_MASK ≠ XPCS_USXG_AN_STS_SPEED_5000)
    ∧ (xpcs_set_speed_val 0x800 0
         = ((0 : Nat) ||| (XPCS_SR_MII_CTRL_SS6 ||| XPCS_SR_MII_CTRL_SS13))
           &&& not32 XPCS_SR_MII_CTRL_SS5
       ∧ (xpcs_set_speed_val 0x800 0).testBit 6 = true
       ∧ (xpcs_set_speed_val 0x800 0).testBit 13 = true
       ∧ (xpcs_set_speed_val 0x800 0).testBit 5 = false) :=
  ⟨by decide, by decide, by decide,
   xpcs_set_speed_default_programs_10g 0x800 0 (by decide) (by decide) (by decide)⟩

/-! ## Claims about the XPCS bring-up polls -/

/-- Helper: when every read of the AN interrupt-status register has the
AN-complete bit clear, the polling loop runs its countdown to 0, reading
and delaying once per iteration, and times out. -/
theorem xpcs_poll_an_go_all_clear (anSts : Nat → Nat)
    (h : ∀ n, anSts n % 2 ^ 32 &&& XPCS_VR_MII_AN_INTR_STS_CL37_ANCMPLT_INTR = 0) :
    ∀ remaining reads delays,
      xpcs_poll_an_go anSts remaining reads delays
        = .timedOut (reads + remaining) (delays + remaining) := by
  intro remaining
  induction remaining with
  | zero => intro r d; simp [xpcs_poll_an_go]
  | succ n ih =>
    intro r d
    simp only [xpcs_poll_an_go]
    rw [if_pos (h r), ih (r + 1) (d + 1)]
    rw [show r + 1 + n = r + (n + 1) from by omega,
        show d + 1 + n = d + (n + 1) from by omega]

/-- Claim C5, amended: if every read of the AN interrupt-status register
has the AN-complete bit clear, `xpcs_start` returns `-1`
(`HardwareTimeout`) after exactly 1001 poll iterations — the loop guard
is `count > retry` with `retry = 1000` and `count` starting at 0, so the
ceiling is retry + 1, not retry — each iteration issuing one
`udelay(1000U)`; the only register write performed is the initial
AN-enable write. -/
theorem xpcs_start_an_never_complete (env : XpcsEnv)
    (h : ∀ n, env.anSts n % 2 ^ 32 &&& XPCS_VR_MII_AN_INTR_STS_CL37_ANCMPLT_INTR = 0) :
    (xpcs_start env).ret = -1
    ∧ (xpcs_start env).anReads = 1001
    ∧ (xpcs_start env).anDelays = 1001
    ∧ (xpcs_start env).writes
        = [(XpcsReg.SR_MII_CTRL, env.miiCtrl0 % 2 ^ 32 ||| XPCS_SR_MII_CTRL_AN_ENABLE)] := by
  have hp := xpcs_poll_an_go_all_clear env.anSts h 1001 0 0
  simp [xpcs_start, hp]

/-- Counterexample to claim C5 as stated: in an environment where the
AN-complete bit never sets, `xpcs_start` performs 1001 poll iterations
of the AN status register before returning `-1`, not 1000 as the claim
requires. -/
theorem xpcs_start_an_timeout_not_1000_iterations :
    (xpcs_start envAnSilent).ret = -1
    ∧ (xpcs_start envAnSilent).anReads = 1001
    ∧ ¬((xpcs_start envAnSilent).anReads = 1000) := by
  have hp := xpcs_poll_an_go_all_clear envAnSilent.anSts (fun n => by simp [envAnSilent]) 1001 0 0
  simp [xpcs_start, hp]

/-- Witness for the amended claim C5 in the concrete all-quiet
environment. -/
theorem xpcs_start_an_never_complete_witness :
    (xpcs_start envAnSilent).ret = -1
    ∧ (xpcs_start envAnSilent).anReads = 1001
    ∧ (xpcs_start envAnSilent).anDelays = 1001
    ∧ (xpcs_start envAnSilent).writes
        = [(XpcsReg.SR_MII_CTRL, envAnSilent.miiCtrl0 % 2 ^ 32 ||| XPCS_SR_MII_CTRL_AN_ENABLE)] :=
  xpcs_start_an_never_complete envAnSilent (fun n => by simp [envAnSilent])

/-- Claim C6: if the AN poll completes with a status word whose masked
speed field is the zero encoding, `xpcs_start` returns `-1`
(`NegotiationFailed`) having written only the AN-enable value and the
interrupt-clearing write-back: no write to the rate-adaptor register
`VR_XS_PCS_DIG_CTRL1` occurs and neither the rate-adaptor self-clear
poll nor the link-up poll performs a single read or delay. -/
theorem xpcs_start_zero_speed_no_rate_adaptor (env : XpcsEnv) (s r d : Nat)
    (hc : xpcs_poll_an_go env.anSts 1001 0 0 = .completed s r d)
    (hs : s &&& XPCS_USXG_AN_STS_SPEED_MASK = 0) :
    (xpcs_start env).ret = -1
    ∧ (xpcs_start env).writes
        = [(XpcsReg.SR_MII_CTRL, env.miiCtrl0 % 2 ^ 32 ||| XPCS_SR_MII_CTRL_AN_ENABLE),
           (XpcsReg.VR_MII_AN_INTR_STS, s)]
    ∧ (∀ v, ¬((XpcsReg.VR_XS_PCS_DIG_CTRL1, v) ∈ (xpcs_start env).writes))
    ∧ (xpcs_start env).raReads = 0 ∧ (xpcs_start env).raDelays = 0
    ∧ (xpcs_start env).luReads = 0 ∧ (xpcs_start env).luDelays = 0 := by
  simp [xpcs_start, hc, hs]

/-- Witness for claim C6: autonegotiation completes on the very first
read with status word 1 (AN-complete bit only), whose write-back status
0 has a zero speed field. -/
theorem xpcs_start_zero_speed_no_rate_adaptor_witness :
    (xpcs_start envAnZeroSpeed).ret = -1
    ∧ (xpcs_start envAnZeroSpeed).writes
        = [(XpcsReg.SR_MII_CTRL, envAnZeroSpeed.miiCtrl0 % 2 ^ 32 ||| XPCS_SR_MII_CTRL_AN_ENABLE),
           (XpcsReg.VR_MII_AN_INTR_STS, 0)]
    ∧ (∀ v, ¬((XpcsReg.VR_XS_PCS_DIG_CTRL1, v) ∈ (xpcs_start envAnZeroSpeed).writes))
    ∧ (xpcs_start envAnZeroSpeed).raReads = 0 ∧ (xpcs_start envAnZeroSpeed).raDelays = 0
    ∧ (xpcs_start envAnZeroSpeed).luReads = 0 ∧ (xpcs_start envAnZeroSpeed).luDelays = 0 :=
  xpcs_start_zero_speed_no_rate_adaptor envAnZeroSpeed 0 1 0 (by decide) (by decide)

/-! ## Claims about the DMA safety shadow and slot scheduling -/

/-- Helper: the validator scan returns 0 exactly when every populated
slot in the scanned list has its masked hardware value equal to the
stored shadow value. -/
theorem validate_slot_scan_eq_zero_iff (hw : Nat → Nat) (cfg : dma_func_safety) :
    ∀ l : List Nat,
      validate_slot_scan hw cfg l = 0
        ↔ ∀ i ∈ l, ∀ a, cfg.reg_addr i = some a →
            read32 hw a &&& cfg.reg_mask i = cfg.reg_val i := by
  intro l
  induction l with
  | nil => simp [validate_slot_scan]
  | cons i rest ih =>
    simp only [validate_slot_scan]
    cases h : cfg.reg_addr i with
    | none =>
      rw [ih]
      constructor
      · intro hrest j hj a ha
        rcases List.mem_cons.mp hj with rfl | hj
        · rw [h] at ha; exact absurd ha (Option.noConfusion)
        · exact hrest j hj a ha
      · intro hall j hj a ha
        exact hall j (List.mem_cons_of_mem i hj) a ha
    | some a =>
      dsimp only
      by_cases hv : read32 hw a &&& cfg.reg_mask i = cfg.reg_val i
      · rw [if_pos hv, ih]
        constructor
        · intro hrest j hj b hb
          rcases List.mem_cons.mp hj with rfl | hj
          · rw [h] at hb
            rcases Option.some.inj hb with rfl
            exact hv
          · exact hrest j hj b hb
        · intro hall j hj b hb
          exact hall j (List.mem_cons_of_mem i hj) b hb
      · rw [if_neg hv]
        constructor
        · intro habs; exact absurd habs (by norm_num)
        · intro hall
          exact absurd (hall i (List.mem_cons_self i rest) a h) hv

/-- Helper: the validator scan returns either 0 or -1. -/
theorem validate_slot_scan_zero_or_neg_one (hw : Nat → Nat) (cfg : dma_func_safety) :
    ∀ l : List Nat, validate_slot_scan hw cfg l = 0 ∨ validate_slot_scan hw cfg l = -1 := by
  intro l
  induction l with
  | nil => left; rfl
  | cons i rest ih =>
    simp only [validate_slot_scan]
    cases cfg.reg_addr i with
    | none => exact ih
    | some a =>
      dsimp only
      by_cases hv : read32 hw a &&& cfg.reg_mask i = cfg.reg_val i
      · rw [if_pos hv]; exact ih
      · rw [if_neg hv]; right; rfl

/-- Helper: masking with an at-most-32-bit mask absorbs a prior
reduction modulo `2 ^ 32`. -/
theorem read_mod_land_eq (v m : Nat) (hm : m < 2 ^ 32) :
    (v % 2 ^ 32) &&& m = v &&& m := by
  have hmod : ∀ (x j : Nat), (x % 4294967296).testBit j = (decide (j < 32) && x.testBit j) :=
    fun x j => by
      rw [show (4294967296 : Nat) = 2 ^ 32 from by norm_num]
      exact Nat.testBit_mod_two_pow ..
  apply Nat.eq_of_testBit_eq
  intro i
  by_cases hi : i < 32
  · simp [Nat.testBit_land, hmod, hi]
  · have hmb : m.testBit i = false :=
      Nat.testBit_lt_two_pow
        (lt_of_lt_of_le hm (Nat.pow_le_pow_right (by norm_num) (le_of_not_lt hi)))
    simp [Nat.testBit_land, hmod, hi, hmb]

/-- Claim C4, amended.  First part: from a state the validator accepts,
a write through `eqos_dma_safety_writel` to a populated slot — at its
registered address, no other slot registering the same address, the
slot's mask being a 32-bit value — leaves the validator accepting.
Second part: a write performed directly to a monitored hardware
register, bypassing the shadow update, makes the next
`eqos_validate_dma_regs` return `-1` (`IntegrityViolation`) provided the
written value differs from the shadow value under the slot's mask (a
bypass write of the very same masked value is undetectable, which is the
counterexample to the claim as stated). -/
theorem eqos_dma_safety_write_then_validate :
    (∀ (hw : Nat → Nat) (cfg : dma_func_safety) (val addr idx : Nat),
      eqos_validate_dma_regs hw cfg = 0 →
      cfg.reg_addr idx = some addr →
      (∀ j, j ≠ idx → cfg.reg_addr j ≠ some addr) →
      cfg.reg_mask idx < 2 ^ 32 →
      eqos_validate_dma_regs (eqos_dma_safety_writel val addr idx hw cfg).1
        (eqos_dma_safety_writel val addr idx hw cfg).2 = 0)
    ∧ (∀ (hw : Nat → Nat) (cfg : dma_func_safety) (v addr idx : Nat),
      idx < EQOS_MAX_DMA_SAFETY_REGS →
      cfg.reg_addr idx = some addr →
      (v % 2 ^ 32) &&& cfg.reg_mask idx ≠ cfg.reg_val idx →
      eqos_validate_dma_regs (fun a => if a = addr then v else hw a) cfg = -1) := by
  constructor
  · intro hw cfg val addr idx h0 haddr huniq hmask
    rw [eqos_validate_dma_regs] at h0 ⊢
    rw [validate_slot_scan_eq_zero_iff] at h0 ⊢
    intro i hi a ha
    have ha2 : cfg.reg_addr i = some a := ha
    by_cases hidx : i = idx
    · subst hidx
      have hab : a = addr := by
        rw [haddr] at ha2
        exact (Option.some.inj ha2).symm
      subst hab
      show read32 (fun b => if b = a then val else hw b) a &&& cfg.reg_mask i
        = (if i = i then val &&& cfg.reg_mask i else cfg.reg_val i)
      rw [if_pos rfl]
      show (if a = a then val else hw a) % 2 ^ 32 &&& cfg.reg_mask i = val &&& cfg.reg_mask i
      rw [if_pos rfl]
      exact read_mod_land_eq val (cfg.reg_mask i) hmask
    · have hne : a ≠ addr := by
        intro hcontra
        exact huniq i hidx (hcontra ▸ ha2)
      show read32 (fun b => if b = addr then val else hw b) a &&& cfg.reg_mask i
        = (if i = idx then val &&& cfg.reg_mask idx else cfg.reg_val i)
      rw [if_neg hidx]
      show (if a = addr then val else hw a) % 2 ^ 32 &&& cfg.reg_mask i = cfg.reg_val i
      rw [if_neg hne]
      exact h0 i hi a ha2
  · intro hw cfg v addr idx hlt haddr hne
    have hnz : ¬(eqos_validate_dma_regs (fun a => if a = addr then v else hw a) cfg = 0) := by
      rw [eqos_validate_dma_regs, validate_slot_scan_eq_zero_iff]
      intro hall
      have := hall idx (List.mem_range.mpr hlt) addr haddr
      rw [show read32 (fun a => if a = addr then v else hw a) addr = v % 2 ^ 32 from by
        simp [read32]] at this
      exact hne this
    rcases validate_slot_scan_zero_or_neg_one
        (fun a => if a = addr then v else hw a) cfg (List.range EQOS_MAX_DMA_SAFETY_REGS) with h | h
    · exact absurd h hnz
    · exact h

/-- Counterexample to claim C4 as stated: a write performed directly to
the monitored hardware register at `0x1100`, bypassing
`eqos_dma_safety_writel`, that stores the very value 5 the shadow
already holds; the next `eqos_validate_dma_regs` returns 0 (success),
not the `IntegrityViolation` the claim requires for every bypassing
write. -/
theorem eqos_validate_passes_after_identical_bypass_write :
    eqos_validate_dma_regs (fun a => if a = 0x1100 then 5 else dmaHwOne a) dmaCfgOne = 0
    ∧ ¬(eqos_validate_dma_regs (fun a => if a = 0x1100 then 5 else dmaHwOne a) dmaCfgOne
        = -1) := by
  constructor
  · decide
  · decide

/-- Witness for the amended claim C4: a safety write of value 7 to the
single populated slot keeps the validator happy, and a bypassing direct
write of value 9 (masked value 9 differs from the shadow value 5) drives
it to `-1`. -/
theorem eqos_dma_safety_write_then_validate_witness :
    eqos_validate_dma_regs (eqos_dma_safety_writel 7 0x1100 0 dmaHwOne dmaCfgOne).1
      (eqos_dma_safety_writel 7 0x1100 0 dmaHwOne dmaCfgOne).2 = 0
    ∧ eqos_validate_dma_regs (fun a => if a = 0x1100 then 9 else dmaHwOne a) dmaCfgOne = -1 :=
  ⟨eqos_dma_safety_write_then_validate.1 dmaHwOne dmaCfgOne 7 0x1100 0
      (by decide) (by decide)
      (fun j hj => by simp [dmaCfgOne, hj])
      (by decide),
   eqos_dma_safety_write_then_validate.2 dmaHwOne dmaCfgOne 9 0x1100 0
      (by decide) (by decide) (by decide)⟩

/-- Claim C9: `eqos_validate_dma_regs` over a shadow table in which
every slot is unpopulated returns success, and in general it returns
success exactly when every populated slot's masked hardware value equals
its stored shadow value — unpopulated slots are skipped and never
produce a mismatch. -/
theorem eqos_validate_unpopulated_skip :
    (∀ (hw : Nat → Nat) (cfg : dma_func_safety),
      (∀ i, cfg.reg_addr i = none) → eqos_validate_dma_regs hw cfg = 0)
    ∧ (∀ (hw : Nat → Nat) (cfg : dma_func_safety),
      eqos_validate_dma_regs hw cfg = 0
        ↔ ∀ i, i < EQOS_MAX_DMA_SAFETY_REGS → ∀ a, cfg.reg_addr i = some a →
            read32 hw a &&& cfg.reg_mask i = cfg.reg_val i) := by
  constructor
  · intro hw cfg hnone
    rw [eqos_validate_dma_regs, validate_slot_scan_eq_zero_iff]
    intro i _ a ha
    rw [hnone i] at ha
    exact absurd ha Option.noConfusion
  · intro hw cfg
    rw [eqos_validate_dma_regs, validate_slot_scan_eq_zero_iff]
    constructor
    · intro h i hi a ha
      exact h i (List.mem_range.mpr hi) a ha
    · intro h i hi a ha
      exact h i (List.mem_range.mp hi) a ha

/-- Witness for claim C9: the all-unpopulated table validates to 0, and
the single-slot table validates to 0 because its one populated slot
matches. -/
theorem eqos_validate_unpopulated_skip_witness :
    eqos_validate_dma_regs (fun _ => 0) dmaCfgNone = 0
    ∧ eqos_validate_dma_regs dmaHwOne dmaCfgOne = 0 :=
  ⟨eqos_validate_unpopulated_skip.1 (fun _ => 0) dmaCfgNone (fun i => by simp [dmaCfgNone]),
   (eqos_validate_unpopulated_skip.2 dmaHwOne dmaCfgOne).mpr (by
      intro i _ a ha
      by_cases h0 : i = 0
      · subst h0
        simp [dmaCfgOne] at ha
        subst ha
        decide
      · simp [dmaCfgOne, h0] at ha)⟩

/-- Claim C8: for every channel and every interval argument, calling
`eqos_config_slot` with the disable flag computes a written value that
is the read value with only the `ESC` bit cleared: the slot-interval
field is unchanged, the `ESC` bit is cleared, and every bit other than
bit 0 is exactly the bit of the previously programmed register value. -/
theorem eqos_config_slot_disable_only_clears_esc :
    ∀ (set interval value : Nat), set ≠ OSI_ENABLE → value < 2 ^ 32 →
      eqos_config_slot_val set interval value = value &&& not32 EQOS_DMA_CHX_SLOT_ESC
      ∧ ((eqos_config_slot_val set interval value >>> EQOS_DMA_CHX_SLOT_SIV_SHIFT)
          &&& EQOS_DMA_CHX_SLOT_SIV_MASK
          = (value >>> EQOS_DMA_CHX_SLOT_SIV_SHIFT) &&& EQOS_DMA_CHX_SLOT_SIV_MASK)
      ∧ eqos_config_slot_val set interval value &&& EQOS_DMA_CHX_SLOT_ESC = 0
      ∧ ∀ k, k ≠ 0 → (eqos_config_slot_val set interval value).testBit k = value.testBit k := by
  intro set interval value hset hv
  have e : eqos_config_slot_val set interval value = value &&& not32 EQOS_DMA_CHX_SLOT_ESC := by
    unfold eqos_config_slot_val
    rw [if_neg hset]
  have hesc : ∀ k, k ≠ 0 → Nat.testBit EQOS_DMA_CHX_SLOT_ESC k = false := by
    intro k hk
    have h1 : EQOS_DMA_CHX_SLOT_ESC = 2 ^ 0 := by norm_num [EQOS_DMA_CHX_SLOT_ESC]
    rw [h1, Nat.testBit_two_pow]
    exact decide_eq_false (fun h => hk h.symm)
  have hbit : ∀ k, k ≠ 0 →
      (value &&& not32 EQOS_DMA_CHX_SLOT_ESC).testBit k = value.testBit k := by
    intro k hk
    by_cases hk32 : k < 32
    · rw [testBit_land_not32_of_lt _ _ _ hk32, hesc k hk]
      simp
    · have hvb : value.testBit k = false :=
        Nat.testBit_lt_two_pow
          (lt_of_lt_of_le hv (Nat.pow_le_pow_right (by norm_num) (le_of_not_lt hk32)))
      rw [Nat.testBit_land, hvb]
      simp
  refine ⟨e, ?_, ?_, ?_⟩
  · apply Nat.eq_of_testBit_eq
    intro i
    rw [Nat.testBit_land, Nat.testBit_land, Nat.testBit_shiftRight, Nat.testBit_shiftRight]
    rw [e, hbit (EQOS_DMA_CHX_SLOT_SIV_SHIFT + i) (by norm_num [EQOS_DMA_CHX_SLOT_SIV_SHIFT])]
  · apply Nat.eq_of_testBit_eq
    intro i
    rw [Nat.testBit_land, Nat.zero_testBit]
    by_cases hi : i = 0
    · subst hi
      rw [e, testBit_land_not32_of_lt _ _ _ (by norm_num)]
      simp [show Nat.testBit EQOS_DMA_CHX_SLOT_ESC 0 = true from by decide]
    · rw [hesc i hi]
      simp
  · intro k hk
    rw [e]
    exact hbit k hk

/-- Witness for claim C8 at disable flag 0, interval 77 and previous
register value `0x12345`. -/
theorem eqos_config_slot_disable_only_clears_esc_witness :
    (0 : Nat) ≠ OSI_ENABLE ∧ (0x12345 : Nat) < 2 ^ 32
    ∧ (eqos_config_slot_val 0 77 0x12345 = 0x12345 &&& not32 EQOS_DMA_CHX_SLOT_ESC
      ∧ ((eqos_config_slot_val 0 77 0x12345 >>> EQOS_DMA_CHX_SLOT_SIV_SHIFT)
          &&& EQOS_DMA_CHX_SLOT_SIV_MASK
          = ((0x12345 : Nat) >>> EQOS_DMA_CHX_SLOT_SIV_SHIFT) &&& EQOS_DMA_CHX_SLOT_SIV_MASK)
      ∧ eqos_config_slot_val 0 77 0x12345 &&& EQOS_DMA_CHX_SLOT_ESC = 0
      ∧ ∀ k, k ≠ 0 → (eqos_config_slot_val 0 77 0x12345).testBit k = (0x12345 : Nat).testBit k) :=
  ⟨by decide, by norm_num,
   eqos_config_slot_disable_only_clears_esc 0 77 0x12345 (by decide) (by norm_num)⟩

/-! ## Claims about the MMC accumulator -/

/-- Claim C1, evaluated at the failing input: with the stored value at
`ULONG_MAX` and the hardware register reading 2, `update_mmc_val`
computes `temp = (ULONG_MAX + 2) mod 2 ^ 64 = 1` — the 64-bit
`unsigned long long` sum has already wrapped, so the guard
`temp > ULONG_MAX` is false — and returns the wrapped value 1 with the
state untouched: no reset happens, the stored value drops from
`ULONG_MAX` to 1, and monotonicity is violated. -/
theorem update_mmc_val_wraps_at_ulong_max :
    update_mmc_val mmcHwWrap mmcStZero ULONG_MAX MMC_TXOCTETCOUNT_GB = (1, mmcStZero)
    ∧ (1 : Nat) < ULONG_MAX
    ∧ mmcStZero.resets = 0 :=
  ⟨by decide, by norm_num [ULONG_MAX], rfl⟩

/-- Claim C2, evaluated at the failing input: the transmit octet
counter is saturated at `ULONG_MAX` and its register delta 1 makes the
mathematical sum exceed the representable range, yet after
`eqos_read_mmc` the reset bit has been asserted zero times (not exactly
once), the packet counter holds 5 (not zero), and the octet counter
holds the silently wrapped value 0. -/
theorem eqos_read_mmc_overflow_no_reset :
    ULONG_MAX < mmcStSat.mmc.mmc_tx_octetcount_gb + read32 mmcHwOv MMC_TXOCTETCOUNT_GB
    ∧ (eqos_read_mmc mmcHwOv mmcStSat).resets = 0
    ∧ (eqos_read_mmc mmcHwOv mmcStSat).mmc.mmc_tx_framecount_gb = 5
    ∧ (eqos_read_mmc mmcHwOv mmcStSat).mmc.mmc_tx_octetcount_gb = 0 :=
  ⟨by decide, by decide, by decide, by decide⟩

/-- Claim C3, evaluated at the failing input: `eqos_read_mmc`
accumulates `mmc_tx_carrier_error` from `mmc_tx_exesscol`'s running
value 100, producing 101 where accumulating its own previous value 7
with its own register delta 1 gives 8; and `mmc_rx_udp_gd_octets` is
written twice, from both the IPv6-good-octets register (delta 10) and
the UDP-good-octets register (delta 20), producing 33 where a counter
bound to exactly its own register gives 23. -/
theorem eqos_read_mmc_counter_binding_broken :
    (eqos_read_mmc mmcHwBind mmcStBind).mmc.mmc_tx_carrier_error = 101
    ∧ mmcStBind.mmc.mmc_tx_carrier_error + read32 mmcHwBind MMC_TXCARRIERERROR = 8
    ∧ (eqos_read_mmc mmcHwBind mmcStBind).mmc.mmc_rx_udp_gd_octets = 33
    ∧ mmcStBind.mmc.mmc_rx_udp_gd_octets + read32 mmcHwBind MMC_RXUDP_GD_OCTETS = 23 :=
  ⟨by decide, by decide, by decide, by decide⟩

/-- Helper: on the LP64 target the guard `temp > ULONG_MAX` of
`update_mmc_val` is unsatisfiable — `temp` is a 64-bit value and
`ULONG_MAX` the largest 64-bit value — so the routine always returns the
(possibly wrapped) modular sum and never invokes `eqos_reset_mmc`,
whatever the state, stored value or register. -/
theorem update_mmc_val_no_reset (hw : Nat → Nat) (st : MmcState) (last off : Nat) :
    update_mmc_val hw st last off = ((last + read32 hw off) % 2 ^ 64, st) := by
  simp only [update_mmc_val]
  have hle : ¬((last + read32 hw off) % 2 ^ 64 > ULONG_MAX) := by
    have h1 : (last + read32 hw off) % 2 ^ 64 < 2 ^ 64 := Nat.mod_lt _ (by norm_num)
    norm_num [ULONG_MAX]
    omega
  rw [if_neg hle]
